import Mathlib

/-!
Verification of the py-c3d reader/writer core against its specification.

Each Python construct of the repository is shallowly embedded as an
executable Lean definition:

* machine integers become `Nat`/`Int` (with explicit range checks where
  `struct.pack` would raise),
* byte strings become `List Nat` (each entry a byte value) or `List (Fin 256)`,
* decoded 32-bit floats that only flow through comparisons and truncation
  are represented as `Rat`,
* fallible Python code becomes `Except PyErr` / `Option`,
* Python `dict`s (which preserve insertion order and update in place)
  become association lists with `dictSet` / `dictDel` operations.

The embedded definitions mirror, statement by statement, the functions in
`c3d/manager.py`, `c3d/parameter.py`, `c3d/group.py`, `c3d/dtypes.py`,
`c3d/header.py` and `c3d/writer.py`.
-/

/-- Python exception kinds that the embedded code can raise.  `nameError`
covers uses of an identifier that is not bound at runtime (Python raises
`NameError`, or `UnboundLocalError` for an unassigned local). -/
inductive PyErr where
  | assertionError
  | keyError
  | valueError
  | valueErrorUnknownMode
  | valueErrorNonIntel
  | typeError
  | nameError
  | unboundLocalError
  | unsupportedProcessor
  | structError
  deriving DecidableEq, Repr

/-! ## Parameter array reshaping (`c3d/parameter.py`, `ParamData._as_array`)

`ParamData._as_array` decodes `self.bytes` into a flat element buffer with
`np.frombuffer` and then reshapes it with `elems.reshape(self.dimensions[::-1])`,
i.e. a C-order (row-major) reshape to the reversed dimension list.  When
`self.dimensions` is empty it instead returns `[self._as(dtype)]`, a single
scalar element.  Below, the flat buffer is `elems : List Int` (the decoded
elements in file order) and element access into the reshaped array is
expressed through the C-order flat offset. -/

/-- Flat offset of a multi-index in a C-order (row-major, last axis fastest)
array of the given shape; this is how numpy addresses the array produced by
`reshape(self.dimensions[::-1])`. -/
def cOrderOffset (shape idx : List Nat) : Nat :=
  (List.zip shape idx).foldl (fun acc p => acc * p.1 + p.2) 0

/-- Flat offset of a multi-index in Fortran (column-major, first axis fastest)
order for dimension list `dims = [d0, d1, ...]`: `i0 + d0*(i1 + d1*(...))`. -/
def fortranOffset : List Nat → List Nat → Nat
  | d :: ds, i :: is2 => i + d * fortranOffset ds is2
  | _, _ => 0

/-- Embedding of `ParamData._as_array` for a parameter with non-empty
`dimensions`: the result is the flat buffer viewed with C-order indexing at
shape `dims.reverse`; `as_array_get dims elems idx` is the element of the
reshaped array at (natural-order) multi-index `idx`. -/
def as_array_get (dims : List Nat) (elems : List Int) (idx : List Nat) : Option Int :=
  elems.get? (cOrderOffset dims.reverse idx)

/-- Embedding of the `if not self.dimensions: return [self._as(dtype)]` branch
of `ParamData._as_array`: a parameter with empty dimensions yields the single
leading element of the decoded buffer. -/
def as_array_scalar (elems : List Int) : List Int :=
  elems.take 1

theorem cOrderOffset_append (l : List (Nat × Nat)) (d i : Nat) :
    (l ++ [(d, i)]).foldl (fun acc p => acc * p.1 + p.2) 0
      = l.foldl (fun acc p => acc * p.1 + p.2) 0 * d + i := by
  simp [List.foldl_append]

theorem cOrder_reverse_eq_fortran (dims idx : List Nat)
    (h : idx.length = dims.length) :
    cOrderOffset dims.reverse idx.reverse = fortranOffset dims idx := by
  induction dims generalizing idx with
  | nil =>
    cases idx with
    | nil => rfl
    | cons i is2 => simp at h
  | cons d ds ih =>
    cases idx with
    | nil => simp at h
    | cons i is2 =>
      have hlen : is2.length = ds.length := by simpa using h
      have hz : (List.zip (ds.reverse ++ [d]) (is2.reverse ++ [i]))
          = List.zip ds.reverse is2.reverse ++ [(d, i)] := by
        rw [List.zip_append (by simp [hlen])]
        rfl
      calc cOrderOffset (d :: ds).reverse (i :: is2).reverse
          = (List.zip (ds.reverse ++ [d]) (is2.reverse ++ [i])).foldl
              (fun acc p => acc * p.1 + p.2) 0 := by
            simp [cOrderOffset]
        _ = (List.zip ds.reverse is2.reverse ++ [(d, i)]).foldl
              (fun acc p => acc * p.1 + p.2) 0 := by rw [hz]
        _ = cOrderOffset ds.reverse is2.reverse * d + i := by
            rw [cOrderOffset_append]; rfl
        _ = fortranOffset ds is2 * d + i := by rw [ih is2 hlen]
        _ = i + d * fortranOffset ds is2 := by ring
        _ = fortranOffset (d :: ds) (i :: is2) := rfl

/-- Claim C2: for a parameter with Fortran-order dimensions
`[d0, d1, ..., dn]` whose payload is packed in that Fortran order, the typed
array accessor (`ParamData._as_array`) yields a natural-order array of shape
`[dn, ..., d1, d0]` whose element at multi-index `(in, ..., i1, i0)` is the
element packed at flat Fortran offset `i0 + i1*d0 + i2*d0*d1 + ...`; a
parameter with empty dimensions is returned as the single scalar element. -/
theorem as_array_fortran_order (dims : List Nat) (elems : List Int)
    (idx : List Nat) (h : idx.length = dims.length) :
    as_array_get dims elems idx = elems.get? (fortranOffset dims idx.reverse)
      ∧ as_array_scalar elems = elems.take 1 := by
  constructor
  · unfold as_array_get
    have hlen : idx.reverse.length = dims.length := by simpa using h
    rw [← cOrder_reverse_eq_fortran dims idx.reverse hlen, List.reverse_reverse]
  · rfl

/-- Witness for C2: dimensions `[2, 3]` (Fortran order), buffer
`[10, 11, 12, 13, 14, 15]`; the element of the natural-order `3 × 2` array at
multi-index `(2, 1)` is the element at Fortran offset `1 + 2*2 = 5`. -/
theorem as_array_fortran_order_witness :
    as_array_get [2, 3] [10, 11, 12, 13, 14, 15] [2, 1]
      = ([10, 11, 12, 13, 14, 15] : List Int).get? (fortranOffset [2, 3] [1, 2])
    ∧ ([2, 1] : List Nat).length = ([2, 3] : List Nat).length := by
  refine ⟨?_, by decide⟩
  have h := as_array_fortran_order [2, 3] [10, 11, 12, 13, 14, 15] [2, 1] (by decide)
  simpa using h.1

/-! ## Frame-range resolution (`c3d/manager.py`, `Manager.last_frame`)

`Manager.last_frame` first trusts the header `first_frame`/`last_frame` pair
when `first_frame < last_frame and last_frame != 65535`; otherwise it builds
`end_frame = [header.last_frame, 0.0, 0.0, 0.0]`, overwrites the slots from
`TRIAL:ACTUAL_END_FIELD` (`uint32_value`), `POINT:LONG_FRAMES`
(`int(float_value)` when `bytes_per_element >= 4`, else `uint16_value`) and
`POINT:FRAMES` (`int(float_value)` when `bytes_per_element == 4`, else
`uint16_value`) when those parameters exist, and returns
`int(np.max(end_frame))`.

Parameters reaching this logic are abstracted by their decoded accessor
values: `uint32_value`/`uint16_value` as `Nat` and `float_value` as `Rat`
(32-bit floats only flow into truncation and comparison here). -/

/-- The header fields consulted by `Manager.last_frame`. -/
structure HeaderFrames where
  first_frame : Nat
  last_frame : Nat
  deriving Repr

/-- Decoded accessor views of a parameter, as used by `Manager.last_frame`:
`bytes_per_element` (signed, `-1` marks string data) and the values the
`uint32_value`, `uint16_value` and `float_value` accessors would decode. -/
structure ParamView where
  bytes_per_element : Int
  uint32_value : Nat
  uint16_value : Nat
  float_value : Rat
  deriving Repr

/-- Python `int()` applied to a float value: truncation toward zero. -/
def pyIntTrunc (q : Rat) : Int :=
  if 0 ≤ q then ⌊q⌋ else ⌈q⌉

/-- Embedding of `Manager.last_frame` (`c3d/manager.py` lines 343-373).  The
three optional arguments are the results of `self.get` on
`TRIAL:ACTUAL_END_FIELD`, `POINT:LONG_FRAMES` and `POINT:FRAMES`. -/
def last_frame (h : HeaderFrames) (trialEnd longFrames framesP : Option ParamView) : Int :=
  if h.first_frame < h.last_frame ∧ h.last_frame ≠ 65535 then
    (h.last_frame : Int)
  else
    -- end_frame = [self.header.last_frame, 0.0, 0.0, 0.0], with the three
    -- candidate slots overwritten when the parameter exists
    let e1 : Int := match trialEnd with
      | some p => (p.uint32_value : Int)
      | none => 0
    let e2 : Int := match longFrames with
      | some p =>
        if p.bytes_per_element ≥ 4 then pyIntTrunc p.float_value
        else (p.uint16_value : Int)
      | none => 0
    let e3 : Int := match framesP with
      | some p =>
        if p.bytes_per_element = 4 then pyIntTrunc p.float_value
        else (p.uint16_value : Int)
      | none => 0
    -- int(np.max(end_frame))
    max (max (max (h.last_frame : Int) e1) e2) e3

/-- The candidate value the claim assigns to `TRIAL:ACTUAL_END_FIELD`:
read as a 32-bit unsigned integer. -/
def claimTrialCandidate (p : ParamView) : Int := (p.uint32_value : Int)

/-- The candidate value the claim assigns to `POINT:LONG_FRAMES`: read as a
float when its element width is at least 4 bytes, else as uint16. -/
def claimLongFramesCandidate (p : ParamView) : Int :=
  if p.bytes_per_element ≥ 4 then pyIntTrunc p.float_value else (p.uint16_value : Int)

/-- The candidate value the claim assigns to `POINT:FRAMES`: read as a
float32 when its element width is exactly 4 bytes, else as uint16. -/
def claimFramesCandidate (p : ParamView) : Int :=
  if p.bytes_per_element = 4 then pyIntTrunc p.float_value else (p.uint16_value : Int)

/-- The value described by the claim: the header `last_frame` when the header
pair is valid, otherwise the maximum over the header `last_frame` value and
each successfully decoded candidate (absent parameters contribute nothing). -/
def last_frame_claimed (h : HeaderFrames)
    (trialEnd longFrames framesP : Option ParamView) : Int :=
  if h.first_frame < h.last_frame ∧ h.last_frame ≠ 65535 then
    (h.last_frame : Int)
  else
    let cands : List Int :=
      (trialEnd.map claimTrialCandidate).toList
        ++ (longFrames.map claimLongFramesCandidate).toList
        ++ (framesP.map claimFramesCandidate).toList
    cands.foldl max (h.last_frame : Int)

theorem max_zero_left_absorb (L x : Int) (hL : 0 ≤ L) :
    max (max L 0) x = max L x := by
  rw [max_eq_left hL]

/-- Claim C1: `Manager.last_frame` returns the header `last_frame` field
exactly when `header.first_frame < header.last_frame` and
`header.last_frame != 65535`; in every other case (in particular when
`last_frame == 65535` with `first_frame >= last_frame`) it returns the
maximum over the header value and each successfully decoded candidate among
`TRIAL:ACTUAL_END_FIELD` (uint32), `POINT:LONG_FRAMES` (float when the
element width is at least 4 bytes, else uint16) and `POINT:FRAMES` (float32
when the element width is exactly 4 bytes, else uint16). -/
theorem last_frame_resolution (h : HeaderFrames)
    (trialEnd longFrames framesP : Option ParamView) :
    last_frame h trialEnd longFrames framesP
      = last_frame_claimed h trialEnd longFrames framesP := by
  unfold last_frame last_frame_claimed
  by_cases hc : h.first_frame < h.last_frame ∧ h.last_frame ≠ 65535
  · simp [hc]
  · simp only [if_neg hc]
    have hL : (0 : Int) ≤ (h.last_frame : Int) := Int.ofNat_nonneg _
    cases trialEnd with
    | none =>
      cases longFrames with
      | none =>
        cases framesP with
        | none => simp [max_eq_left hL]
        | some p3 =>
          simp [claimFramesCandidate, max_zero_left_absorb _ _ hL,
            max_zero_left_absorb _ _ (le_max_of_le_left hL)]
      | some p2 =>
        cases framesP with
        | none =>
          simp [claimLongFramesCandidate, max_zero_left_absorb _ _ hL,
            max_eq_left (le_max_of_le_left hL)]
        | some p3 =>
          simp [claimLongFramesCandidate, claimFramesCandidate,
            max_zero_left_absorb _ _ hL]
    | some p1 =>
      cases longFrames with
      | none =>
        cases framesP with
        | none =>
          simp [claimTrialCandidate,
            max_eq_left (le_max_of_le_left hL),
            max_zero_left_absorb _ _ (le_max_of_le_left hL)]
        | some p3 =>
          simp [claimTrialCandidate, claimFramesCandidate,
            max_zero_left_absorb _ _ (le_max_of_le_left hL)]
      | some p2 =>
        cases framesP with
        | none =>
          simp [claimTrialCandidate, claimLongFramesCandidate,
            max_eq_left (le_max_of_le_left (le_max_of_le_left hL))]
        | some p3 =>
          simp [claimTrialCandidate, claimLongFramesCandidate, claimFramesCandidate]

/-! ## String decoding (`c3d/dtypes.py`, `DataTypes.decode_string`)

`decode_string` walks the decoder list `['utf-8', 'latin-1']`, returning the
first decode that does not raise `UnicodeDecodeError`, and as a final resort
decodes as UTF-8 with the `'replace'` error handler.  Byte strings are
`List (Fin 256)`; decoded strings are lists of Unicode code points. -/

/-- A byte of a Python `bytes` object. -/
def PyByte := Fin 256
  deriving DecidableEq

/-- Strict UTF-8 decoding of a byte string to its code points, `none` on the
inputs where Python's `'utf-8'` codec raises `UnicodeDecodeError`: stray
continuation bytes, overlong encodings, surrogate code points, code points
above `U+10FFFF`, and truncated sequences. -/
def utf8Decode : List PyByte → Option (List Nat)
  | [] => some []
  | b :: rest =>
    if b.val < 0x80 then
      (utf8Decode rest).map (b.val :: ·)
    else if b.val < 0xC2 then
      none
    else if b.val < 0xE0 then
      match rest with
      | c1 :: r =>
        if 0x80 ≤ c1.val ∧ c1.val < 0xC0 then
          (utf8Decode r).map (((b.val - 0xC0) * 0x40 + (c1.val - 0x80)) :: ·)
        else none
      | _ => none
    else if b.val < 0xF0 then
      match rest with
      | c1 :: c2 :: r =>
        if (0x80 ≤ c1.val ∧ c1.val < 0xC0) ∧ (0x80 ≤ c2.val ∧ c2.val < 0xC0)
            ∧ (b.val = 0xE0 → 0xA0 ≤ c1.val) ∧ (b.val = 0xED → c1.val < 0xA0) then
          (utf8Decode r).map
            (((b.val - 0xE0) * 0x1000 + (c1.val - 0x80) * 0x40 + (c2.val - 0x80)) :: ·)
        else none
      | _ => none
    else if b.val < 0xF5 then
      match rest with
      | c1 :: c2 :: c3 :: r =>
        if (0x80 ≤ c1.val ∧ c1.val < 0xC0) ∧ (0x80 ≤ c2.val ∧ c2.val < 0xC0)
            ∧ (0x80 ≤ c3.val ∧ c3.val < 0xC0)
            ∧ (b.val = 0xF0 → 0x90 ≤ c1.val) ∧ (b.val = 0xF4 → c1.val < 0x90) then
          (utf8Decode r).map
            (((b.val - 0xF0) * 0x40000 + (c1.val - 0x80) * 0x1000
              + (c2.val - 0x80) * 0x40 + (c3.val - 0x80)) :: ·)
        else none
      | _ => none
    else
      none

/-- Latin-1 decoding: every byte value 0-255 maps to the code point of the
same value, so this decoder succeeds on every byte string. -/
def latin1Decode (bs : List PyByte) : Option (List Nat) :=
  some (bs.map Fin.val)

/-- UTF-8 decoding with the `'replace'` error handler: invalid bytes become
`U+FFFD`.  (This branch of `decode_string` is unreachable, see
`decode_string_fallback_chain`; a maximal-valid-then-replace refinement of the
error handler is therefore not needed.) -/
def utf8ReplaceDecode : List PyByte → List Nat
  | [] => []
  | b :: rest =>
    if b.val < 0x80 then b.val :: utf8ReplaceDecode rest
    else 0xFFFD :: utf8ReplaceDecode rest

/-- The decoder chain of `decode_string`: `decoders = ['utf-8', 'latin-1']`. -/
def decoderChain : List (List PyByte → Option (List Nat)) :=
  [utf8Decode, latin1Decode]

/-- The `for dec in decoders: try ... except UnicodeDecodeError: continue`
loop: the first decoder that succeeds wins. -/
def firstDecoder (ds : List (List PyByte → Option (List Nat)))
    (bs : List PyByte) : Option (List Nat) :=
  match ds with
  | [] => none
  | d :: ds => match d bs with
    | some r => some r
    | none => firstDecoder ds bs

/-- Embedding of `DataTypes.decode_string`: try the decoder chain in order
and fall back to UTF-8 with replacement characters. -/
def decode_string (bs : List PyByte) : List Nat :=
  match firstDecoder decoderChain bs with
  | some r => r
  | none => utf8ReplaceDecode bs

/-- Claim C9: `DataTypes.decode_string` returns a string for every byte-string
input and never raises: it decodes as UTF-8 when the input is valid UTF-8 and
otherwise falls back to Latin-1 (which accepts every byte string, so the
final UTF-8-with-replacement resort can never be reached). -/
theorem decode_string_fallback_chain (bs : List PyByte) :
    decode_string bs
      = (match utf8Decode bs with
         | some r => r
         | none => bs.map Fin.val) := by
  unfold decode_string firstDecoder decoderChain
  cases h : utf8Decode bs with
  | some r => simp [h]
  | none => simp [h, latin1Decode, firstDecoder]

/-! ## Metadata consistency check (`c3d/manager.py`, `Manager._check_metadata`)

`_check_metadata` runs five `assert` statements comparing header fields with
the parameter-derived properties (`point_used`, `point_scale`, `point_rate`,
the analog-rate ratio and the analog count); a failing `assert` raises
`AssertionError` and aborts `Reader.__init__` (whose docstring documents
exactly this).  Only the `POINT:DATA_START` comparison and the
missing-parameter checks are `warnings.warn` calls.

The manager state is abstracted by the header fields consulted and by the
decoded values of the optional parameters each derived property reads
(`None` encodes an absent parameter: the accessor chain then raises
`AttributeError`, which each property catches to fall back to the header). -/

/-- Header fields consulted by `_check_metadata` and the fallback paths of
the derived properties. -/
structure HeaderMeta where
  point_count : Nat
  scale_factor : Rat
  frame_rate : Rat
  analog_per_frame : Nat
  analog_count : Nat
  data_block : Nat
  deriving Repr

/-- Manager state as seen by `_check_metadata`: the header plus the decoded
values of the parameters the derived properties consult.  For the two LABELS
parameters the decoded `num_elements` is kept (`none` = parameter absent);
for the DESCRIPTIONS parameters only presence matters. -/
structure MetaState where
  header : HeaderMeta
  pointUsedP : Option Nat
  pointScaleP : Option Rat
  pointRateP : Option Rat
  analogUsedP : Option Nat
  analogRateP : Option Rat
  dataStartP : Option Nat
  pointLabelsP : Option Nat
  pointDescsPresent : Bool
  analogLabelsP : Option Nat
  analogDescsPresent : Bool
  deriving Repr

/-- `Manager.point_used`: `POINT:USED` as uint16, falling back to
`header.point_count`. -/
def point_used (st : MetaState) : Nat :=
  st.pointUsedP.getD st.header.point_count

/-- `Manager.point_scale`: `POINT:SCALE` as float, falling back to
`header.scale_factor`. -/
def point_scale (st : MetaState) : Rat :=
  st.pointScaleP.getD st.header.scale_factor

/-- `Manager.point_rate`: `POINT:RATE` as float, falling back to
`header.frame_rate`. -/
def point_rate (st : MetaState) : Rat :=
  st.pointRateP.getD st.header.frame_rate

/-- `Manager.analog_used`: `ANALOG:USED` as uint16, falling back to
`int(header.analog_count / header.analog_per_frame)` when
`header.analog_per_frame > 0`, else `0` (both counts are small non-negative
integers, so the float division truncates to Nat division). -/
def analog_used (st : MetaState) : Nat :=
  st.analogUsedP.getD
    (if st.header.analog_per_frame > 0 then
      st.header.analog_count / st.header.analog_per_frame
     else 0)

/-- `Manager.analog_rate`: `ANALOG:RATE` as float, falling back to
`header.analog_per_frame * point_rate`. -/
def analog_rate (st : MetaState) : Rat :=
  st.analogRateP.getD ((st.header.analog_per_frame : Rat) * point_rate st)

/-- The advisory warnings `_check_metadata` can emit. -/
inductive Warn where
  | dataBlockMismatch
  | noDataStart
  | missingPointLabels
  | missingPointDescriptions
  | noPointData
  | pointLabelsNonEmpty
  | missingAnalogLabels
  | missingAnalogDescriptions
  | noAnalogData
  | analogLabelsNonEmpty
  deriving DecidableEq, Repr

/-- The `POINT:DATA_START` block of `_check_metadata`: warn on a mismatch
with `header.data_block`, warn that the header pointer is the fallback when
the parameter is missing. -/
def data_start_warns (st : MetaState) : List Warn :=
  match st.dataStartP with
  | some s => if st.header.data_block ≠ s then [.dataBlockMismatch] else []
  | none => [.noDataStart]

/-- The LABELS/DESCRIPTIONS checks at the end of `_check_metadata`. -/
def label_warns (st : MetaState) : List Warn :=
  (if point_used st > 0 then
    (if st.pointLabelsP.isNone then [Warn.missingPointLabels] else [])
      ++ (if st.pointDescsPresent then [] else [Warn.missingPointDescriptions])
   else
    match st.pointLabelsP with
    | none => [Warn.noPointData]
    | some n => if n > 0 then [Warn.pointLabelsNonEmpty] else [])
  ++ (if analog_used st > 0 then
    (if st.analogLabelsP.isNone then [Warn.missingAnalogLabels] else [])
      ++ (if st.analogDescsPresent then [] else [Warn.missingAnalogDescriptions])
   else
    match st.analogLabelsP with
    | none => [Warn.noAnalogData]
    | some n => if n > 0 then [Warn.analogLabelsNonEmpty] else [])

/-- The warnings emitted when all five asserts pass. -/
def metadata_warnings (st : MetaState) : List Warn :=
  data_start_warns st ++ label_warns st

/-- Embedding of `Manager._check_metadata`: the five `assert` statements in
source order (each raising `AssertionError` on failure), then the advisory
warnings. -/
def check_metadata (st : MetaState) : Except PyErr (List Warn) :=
  if st.header.point_count = point_used st then
    if st.header.scale_factor = point_scale st then
      if st.header.frame_rate = point_rate st then
        if (st.header.analog_per_frame : Rat)
            = (if point_rate st ≠ 0 then analog_rate st / point_rate st else 0) then
          if st.header.analog_count = analog_used st * st.header.analog_per_frame then
            .ok (metadata_warnings st)
          else .error .assertionError
        else .error .assertionError
      else .error .assertionError
    else .error .assertionError
  else .error .assertionError

/-- Counterexample to claim C3 as stated: a stream whose header advertises 50
points while `POINT:USED` decodes to 2 makes `_check_metadata` raise
`AssertionError` (aborting `Reader.__init__`) instead of warning and
continuing. -/
theorem check_metadata_point_count_aborts :
    check_metadata
      { header := { point_count := 50, scale_factor := -1, frame_rate := 60,
                    analog_per_frame := 0, analog_count := 0, data_block := 3 },
        pointUsedP := some 2, pointScaleP := none, pointRateP := none,
        analogUsedP := none, analogRateP := none, dataStartP := some 3,
        pointLabelsP := some 2, pointDescsPresent := true,
        analogLabelsP := some 0, analogDescsPresent := true }
      = Except.error PyErr.assertionError := rfl

theorem dataBlockMismatch_not_in_label_warns (st : MetaState) :
    Warn.dataBlockMismatch ∉ label_warns st := by
  unfold label_warns
  intro hmem
  rcases List.mem_append.mp hmem with h | h
  · split at h
    · rcases List.mem_append.mp h with h2 | h2 <;> split at h2 <;> simp_all
    · split at h
      · simp_all
      · split at h <;> simp_all
  · split at h
    · rcases List.mem_append.mp h with h2 | h2 <;> split at h2 <;> simp_all
    · split at h
      · simp_all
      · split at h <;> simp_all

/-- Claim C3 amended: disagreements between the header and the POINT/ANALOG
parameters in point count, scale factor, frame rate, analog-rate ratio or
analog count make `_check_metadata` raise `AssertionError`, aborting Reader
construction; only a `POINT:DATA_START`/`data_block` disagreement (and the
missing-parameter conditions) are emitted as warnings with processing
continuing. -/
theorem check_metadata_asserts_and_warns (st : MetaState) :
    ((∃ ws, check_metadata st = Except.ok ws)
      ↔ (st.header.point_count = point_used st
          ∧ st.header.scale_factor = point_scale st
          ∧ st.header.frame_rate = point_rate st
          ∧ (st.header.analog_per_frame : Rat)
              = (if point_rate st ≠ 0 then analog_rate st / point_rate st else 0)
          ∧ st.header.analog_count = analog_used st * st.header.analog_per_frame))
    ∧ (∀ ws, check_metadata st = Except.ok ws
        → (Warn.dataBlockMismatch ∈ ws
            ↔ ∃ s, st.dataStartP = some s ∧ st.header.data_block ≠ s)) := by
  constructor
  · unfold check_metadata
    constructor
    · intro ⟨ws, hws⟩
      by_cases h1 : st.header.point_count = point_used st <;>
        by_cases h2 : st.header.scale_factor = point_scale st <;>
        by_cases h3 : st.header.frame_rate = point_rate st <;>
        by_cases h4 : (st.header.analog_per_frame : Rat)
          = (if point_rate st ≠ 0 then analog_rate st / point_rate st else 0) <;>
        by_cases h5 : st.header.analog_count
          = analog_used st * st.header.analog_per_frame <;>
        simp_all
    · intro ⟨h1, h2, h3, h4, h5⟩
      exact ⟨metadata_warnings st, by simp [h1, h2, h3, h4, h5]⟩
  · intro ws hws
    have hws2 : ws = metadata_warnings st := by
      unfold check_metadata at hws
      by_cases h1 : st.header.point_count = point_used st <;>
        by_cases h2 : st.header.scale_factor = point_scale st <;>
        by_cases h3 : st.header.frame_rate = point_rate st <;>
        by_cases h4 : (st.header.analog_per_frame : Rat)
          = (if point_rate st ≠ 0 then analog_rate st / point_rate st else 0) <;>
        by_cases h5 : st.header.analog_count
          = analog_used st * st.header.analog_per_frame <;>
        simp_all
    subst hws2
    unfold metadata_warnings
    rw [List.mem_append]
    have hlab := dataBlockMismatch_not_in_label_warns st
    have hiff : Warn.dataBlockMismatch ∈ data_start_warns st
        ↔ ∃ s, st.dataStartP = some s ∧ st.header.data_block ≠ s := by
      unfold data_start_warns
      cases h : st.dataStartP with
      | some s =>
        by_cases hne : st.header.data_block = s
        · simp [hne]
        · simp [hne]
      | none => simp
    constructor
    · rintro (hmem | hmem)
      · exact hiff.mp hmem
      · exact absurd hmem hlab
    · intro hex
      exact Or.inl (hiff.mpr hex)

/-- Witness for the amended C3 theorem: with a consistent header/parameter
state whose `POINT:DATA_START` is 7 while `header.data_block` is 3, the check
succeeds and its warning list contains the data-block mismatch warning. -/
theorem check_metadata_asserts_and_warns_witness :
    Warn.dataBlockMismatch ∈ metadata_warnings
      { header := { point_count := 50, scale_factor := -1, frame_rate := 60,
                    analog_per_frame := 0, analog_count := 0, data_block := 3 },
        pointUsedP := some 50, pointScaleP := none, pointRateP := none,
        analogUsedP := none, analogRateP := none, dataStartP := some 7,
        pointLabelsP := some 50, pointDescsPresent := true,
        analogLabelsP := some 0, analogDescsPresent := true } := by
  have h := (check_metadata_asserts_and_warns
    { header := { point_count := 50, scale_factor := -1, frame_rate := 60,
                  analog_per_frame := 0, analog_count := 0, data_block := 3 },
      pointUsedP := some 50, pointScaleP := none, pointRateP := none,
      analogUsedP := none, analogRateP := none, dataStartP := some 7,
      pointLabelsP := some 50, pointDescsPresent := true,
      analogLabelsP := some 0, analogDescsPresent := true }).2
    (metadata_warnings
      { header := { point_count := 50, scale_factor := -1, frame_rate := 60,
                    analog_per_frame := 0, analog_count := 0, data_block := 3 },
        pointUsedP := some 50, pointScaleP := none, pointRateP := none,
        analogUsedP := none, analogRateP := none, dataStartP := some 7,
        pointLabelsP := some 50, pointDescsPresent := true,
        analogLabelsP := some 0, analogDescsPresent := true })
    (by norm_num [check_metadata, point_used, point_scale, point_rate,
      analog_used, analog_rate])
  exact h.mpr ⟨7, rfl, by decide⟩

/-! ## Processor handling (`c3d/reader.py` 52-57, `c3d/dtypes.py`,
`c3d/header.py` `_processor_convert`)

`Reader.__init__` unpacks the processor byte from the parameter-section
preamble and constructs `DataTypes(processor)` without any membership check;
`DataTypes.__init__` likewise accepts every byte (on a little-endian host its
only conditional side effect, the big-endian warning, is skipped).  The first
operation that distinguishes processor values is
`Header._processor_convert`: its `is_dec`/`is_ieee`/`is_mips` chain assigns
the local `float_unpack`, and for any other processor value no branch runs,
so the subsequent `self._parse_events(dtypes, float_unpack)` call raises
`UnboundLocalError` (a `NameError` subclass) — not a dedicated
unsupported-processor error, which does not exist in the package. -/

/-- Embedding of `DataTypes` as far as processor dispatch is concerned
(`c3d/dtypes.py`).  Construction stores the processor byte unchecked. -/
structure DataTypesM where
  proc_type : Nat
  deriving DecidableEq, Repr

/-- `DataTypes.is_ieee`: the Intel format, processor byte 84. -/
def DataTypesM.is_ieee (d : DataTypesM) : Bool := d.proc_type == 84

/-- `DataTypes.is_dec`: the DEC format, processor byte 85. -/
def DataTypesM.is_dec (d : DataTypesM) : Bool := d.proc_type == 85

/-- `DataTypes.is_mips`: the SGI/MIPS format, processor byte 86. -/
def DataTypesM.is_mips (d : DataTypesM) : Bool := d.proc_type == 86

/-- `DataTypes.__init__` on a little-endian host: total, no validation of the
processor byte. -/
def dataTypesInit (processor : Nat) : DataTypesM :=
  { proc_type := processor }

/-- The float-unpack routine `_processor_convert` selects: `DEC_to_IEEE` for
DEC files, `UNPACK_FLOAT_IEEE` for Intel and (after the big-endian re-read)
for MIPS. -/
inductive FloatUnpackKind where
  | decToIeee
  | unpackIeee
  deriving DecidableEq, Repr

/-- Result of a successful `Header._processor_convert`: which float-unpack
routine was bound, and whether the MIPS big-endian header re-read ran. -/
structure ProcConvert where
  unpack : FloatUnpackKind
  reReadBigEndian : Bool
  deriving DecidableEq, Repr

/-- Embedding of `Header._processor_convert`: the `is_dec`/`is_ieee`/`is_mips`
chain binds `float_unpack`; when no branch runs, the
`self._parse_events(dtypes, float_unpack)` call raises `UnboundLocalError`. -/
def processor_convert (d : DataTypesM) : Except PyErr ProcConvert :=
  if d.is_dec then
    .ok { unpack := .decToIeee, reReadBigEndian := false }
  else if d.is_ieee then
    .ok { unpack := .unpackIeee, reReadBigEndian := false }
  else if d.is_mips then
    .ok { unpack := .unpackIeee, reReadBigEndian := true }
  else
    -- float_unpack was never assigned: the _parse_events call raises
    .error .unboundLocalError

/-- The processor-dependent part of `Reader.__init__`: construct
`DataTypes(processor)` (never raises) and run `_processor_convert`; `none`
means construction proceeds, `some e` is the exception propagated out. -/
def reader_processor_check (processor : Nat) : Option PyErr :=
  match processor_convert (dataTypesInit processor) with
  | .ok _ => none
  | .error e => some e

/-- Counterexample to claim C4 as stated: for the processor byte 87 (outside
{84, 85, 86}) Reader construction does fail, but with `UnboundLocalError`
from the unassigned `float_unpack` local — not with an unsupported-processor
error. -/
theorem reader_processor_check_not_unsupported :
    reader_processor_check 87 = some PyErr.unboundLocalError
      ∧ reader_processor_check 87 ≠ some PyErr.unsupportedProcessor := by
  decide

/-- Claim C4 amended: for every processor byte outside {84, 85, 86} Reader
construction fails — but with the accidental `UnboundLocalError` raised when
`_processor_convert` reaches `_parse_events` with `float_unpack` unassigned,
not with a dedicated unsupported-processor error (no such check exists:
`DataTypes.__init__` accepts every byte); for processor bytes 84, 85 and 86
no error is raised by this path. -/
theorem reader_processor_check_resolution (processor : Nat) :
    reader_processor_check processor
      = (if processor = 84 ∨ processor = 85 ∨ processor = 86 then none
         else some PyErr.unboundLocalError)
    ∧ reader_processor_check processor ≠ some PyErr.unsupportedProcessor := by
  constructor
  · unfold reader_processor_check processor_convert dataTypesInit
      DataTypesM.is_dec DataTypesM.is_ieee DataTypesM.is_mips
    by_cases h84 : processor = 84 <;> by_cases h85 : processor = 85 <;>
      by_cases h86 : processor = 86 <;> simp_all
  · unfold reader_processor_check processor_convert dataTypesInit
      DataTypesM.is_dec DataTypesM.is_ieee DataTypesM.is_mips
    by_cases h84 : processor = 84 <;> by_cases h85 : processor = 85 <;>
      by_cases h86 : processor = 86 <;> simp_all

/-! ## Group directory (`c3d/manager.py`, `_add_group` / `_remove_group` /
`_rename_group`)

`Manager._groups` is one Python dict holding each group under two keys: its
name string and its numeric id.  The dict is embedded as an insertion-ordered
association list from `PyKey` to a group identity (a `Nat` allocated by a
counter, standing for the `Group` object); the mutable `GroupData.name`
attribute is a second association list from group identity to its name. -/

/-- Python `str.upper()` on the embedded string (character-wise uppercase;
`String.toUpper` itself does not reduce in the kernel). -/
def pyUpper (s : String) : String := ⟨s.data.map Char.toUpper⟩

/-- A key of the `Manager._groups` dict: a Python `int`, `str`, or `None`
(`_add_group` stores the group under key `None` when no name is given). -/
inductive PyKey where
  | kint (n : Int)
  | kstr (s : String)
  | knone
  deriving DecidableEq, Repr

/-- Python `d.get(k)` on the embedded dict. -/
def dictGet (d : List (PyKey × Nat)) (k : PyKey) : Option Nat :=
  (d.find? (fun p => p.1 == k)).map Prod.snd

/-- Python `d[k] = v`: replace in place when the key exists (its position is
preserved), append otherwise. -/
def dictSet (d : List (PyKey × Nat)) (k : PyKey) (v : Nat) : List (PyKey × Nat) :=
  if (dictGet d k).isSome then
    d.map (fun p => if p.1 == k then (p.1, v) else p)
  else d ++ [(k, v)]

/-- Python `del d[k]` for a key known to be present. -/
def dictDel (d : List (PyKey × Nat)) (k : PyKey) : List (PyKey × Nat) :=
  d.filter (fun p => !(p.1 == k))

/-- The key under which `_add_group` stores a group name: the string for a
named group, the `None` key otherwise. -/
def nameKey : Option String → PyKey
  | some s => .kstr s
  | none => .knone

/-- `GroupData.name` lookup for a group identity. -/
def nameGet (ns : List (Nat × Option String)) (g : Nat) : Option String :=
  ((ns.find? (fun p => p.1 == g)).map Prod.snd).getD none

/-- Assignment to the mutable `GroupData.name` attribute. -/
def nameSet (ns : List (Nat × Option String)) (g : Nat) (nm : Option String) :
    List (Nat × Option String) :=
  if (ns.find? (fun p => p.1 == g)).isSome then
    ns.map (fun p => if p.1 == g then (p.1, nm) else p)
  else ns ++ [(g, nm)]

/-- The manager's group directory state: the dict, the `name` attribute of
every allocated group, and the allocation counter for group identities. -/
structure GroupDir where
  dir : List (PyKey × Nat)
  names : List (Nat × Option String)
  fresh : Nat
  deriving DecidableEq, Repr

/-- Embedding of `Manager._add_group` (type checks on `group_id`/`name`
elided: the embedded argument types already enforce them).  The name is
uppercased when given; both the name key (possibly `None`) and the numeric
key are checked for duplicates, then the fresh group is stored under the
name key and the numeric key. -/
def add_group (st : GroupDir) (group_id : Int) (name : Option String) :
    Except PyErr GroupDir :=
  let nameU := name.map pyUpper
  if (dictGet st.dir (.kint group_id)).isSome then
    .error .keyError
  else if (dictGet st.dir (nameKey nameU)).isSome then
    .error .keyError
  else
    .ok { dir := dictSet (dictSet st.dir (nameKey nameU) st.fresh)
                  (.kint group_id) st.fresh,
          names := nameSet st.names st.fresh nameU,
          fresh := st.fresh + 1 }

/-- Embedding of `Manager._remove_group`: a missing key is a no-op, otherwise
every key resolving to the same group object is deleted. -/
def remove_group (st : GroupDir) (group_id : PyKey) : GroupDir :=
  match dictGet st.dir group_id with
  | none => st
  | some g => { st with dir := st.dir.filter (fun p => !(p.2 == g)) }

/-- Embedding of `Manager._rename_group` with a key-identified group: resolve
the group, reject an already-used new key (unless it equals the identifying
key, a no-op), then for a string new key delete the current name key and
store the new name, while for an integer new key delete the key *given as
the identifier argument* (`del self._groups[group_id]`) and store the new
numeric key. -/
def rename_group (st : GroupDir) (group_id new_id : PyKey) :
    Except PyErr GroupDir :=
  match dictGet st.dir group_id with
  | none => .error .keyError
  | some g =>
    if (dictGet st.dir new_id).isSome then
      if new_id == group_id then .ok st else .error .valueError
    else
      match new_id with
      | .kstr s =>
        let nm := nameKey (nameGet st.names g)
        let dir1 := if (dictGet st.dir nm).isSome then dictDel st.dir nm else st.dir
        .ok { st with dir := dictSet dir1 (.kstr s) g,
                      names := nameSet st.names g (some s) }
      | .kint n =>
        .ok { st with dir := dictSet (dictDel st.dir group_id) (.kint n) g }
      | .knone => .error .keyError

/-- Number of string-name keys in the directory. -/
def strKeyCount (st : GroupDir) : Nat :=
  (st.dir.filter (fun p => match p.1 with | .kstr _ => true | _ => false)).length

/-- Number of integer keys in the directory. -/
def intKeyCount (st : GroupDir) : Nat :=
  (st.dir.filter (fun p => match p.1 with | .kint _ => true | _ => false)).length

/-- Claim C5, evaluated at the failing input: after `_add_group(1, 'FOO')`,
renaming the group *identified by its name key* to the numeric key 2
(`_rename_group('FOO', 2)`) deletes the `'FOO'` name key (because the code
runs `del self._groups[group_id]` on the identifier argument instead of
clearing the old numeric key) and leaves the group reachable under the two
numeric keys 1 and 2 with no name key: the name-key/numeric-key counts 0 and
2 differ, breaking the dual-key invariant the claim states. -/
theorem rename_group_by_name_breaks_dual_key :
    ((add_group { dir := [], names := [], fresh := 0 } 1 (some "FOO")).bind
        (fun st1 => rename_group st1 (.kstr "FOO") (.kint 2))).toOption
      = some { dir := [(.kint 1, 0), (.kint 2, 0)],
               names := [(0, some "FOO")], fresh := 1 }
    ∧ strKeyCount { dir := [(.kint 1, 0), (.kint 2, 0)],
                    names := [(0, some "FOO")], fresh := 1 } = 0
    ∧ intKeyCount { dir := [(.kint 1, 0), (.kint 2, 0)],
                    names := [(0, some "FOO")], fresh := 1 } = 2 := by
  refine ⟨?_, rfl, rfl⟩
  decide

/-! ## Conversion modes (`c3d/writer.py`, `Writer.from_reader` 91-110)

`from_reader` derives five mode flags from the `conversion` string and
rejects combinations in two steps: an unknown-mode `ValueError` when no flag
matched, and a `ValueError` for non-Intel sources unless the shallow flag is
set.  Note that the implementation compares against the string
`'shallow_copy'` although its docstring documents the mode `'copy_shallow'`. -/

/-- Embedding of the mode validation of `Writer.from_reader`: `is_ieee` is
`reader._dtypes.is_ieee`; the result is the error raised, if any. -/
def from_reader_check (is_ieee : Bool) (conversion : Option String) : Option PyErr :=
  let is_header_only := conversion == some "copy_header"
  let is_meta_copy := conversion == some "copy_metadata"
  let is_consume := conversion == some "consume" || conversion == none
  let is_shallow_copy := conversion == some "shallow_copy" || is_header_only
  let is_deep_copy := conversion == some "copy" || is_meta_copy
  if !(is_consume || is_shallow_copy || is_deep_copy) then
    some .valueErrorUnknownMode
  else if !is_ieee && !is_shallow_copy then
    some .valueErrorNonIntel
  else
    none

/-- Claim C6, evaluated at the failing input: the documented mode string
`'copy_shallow'` is rejected with the unknown-mode `ValueError` even for an
Intel source, because the implementation tests for `'shallow_copy'` (which is
accepted); moreover for a non-Intel source the deep mode `'copy'` raises
while `'copy_header'` (a shallow-flag mode) does not. -/
theorem from_reader_copy_shallow_rejected :
    from_reader_check true (some "copy_shallow") = some PyErr.valueErrorUnknownMode
    ∧ from_reader_check true (some "shallow_copy") = none
    ∧ from_reader_check true (some "consume") = none
    ∧ from_reader_check true none = none
    ∧ from_reader_check true (some "copy") = none
    ∧ from_reader_check true (some "copy_metadata") = none
    ∧ from_reader_check true (some "copy_header") = none
    ∧ from_reader_check false (some "copy") = some PyErr.valueErrorNonIntel
    ∧ from_reader_check false (some "consume") = some PyErr.valueErrorNonIntel
    ∧ from_reader_check false (some "copy_header") = none := by
  decide

/-! ## Parameter renaming (`c3d/group.py`, `GroupData.rename_param`)

`GroupData._params` maps parameter names to `Param` objects; it is embedded
as an insertion-ordered association list from `String` to a parameter
identity.  `rename_param` first rejects any `new_name` already present —
with no comparison against the parameter's current name — then moves the
entry. -/

/-- Lookup in the embedded `_params` dict. -/
def paramGet : List (String × Nat) → String → Option Nat
  | [], _ => none
  | p :: d, k => if p.1 == k then some p.2 else paramGet d k

/-- Python `d[k] = v` on the embedded `_params` dict. -/
def paramSet (d : List (String × Nat)) (k : String) (v : Nat) : List (String × Nat) :=
  if (paramGet d k).isSome then
    d.map (fun p => if p.1 == k then (p.1, v) else p)
  else d ++ [(k, v)]

/-- Python `del d[k]` on the embedded `_params` dict. -/
def paramDel (d : List (String × Nat)) (k : String) : List (String × Nat) :=
  d.filter (fun p => !(p.1 == k))

/-- Embedding of `GroupData.rename_param` (key-identified variant): raise
`ValueError` whenever `new_name` is already a key, raise `KeyError` when no
parameter has the original name, otherwise delete the old key and store the
parameter under the new key. -/
def rename_param (d : List (String × Nat)) (name new_name : String) :
    Except PyErr (List (String × Nat)) :=
  if (paramGet d new_name).isSome then
    .error .valueError
  else
    match paramGet d name with
    | none => .error .keyError
    | some p => .ok (paramSet (paramDel d name) new_name p)

/-- Counterexample to claim C7 as stated: renaming a parameter onto its own
current name (`rename_param('X', 'X')`) raises the duplicate-key `ValueError`
instead of succeeding as a no-op — the `new_name in self._params` check has
no identical-name exception (unlike `Manager._rename_group`). -/
theorem rename_param_identity_raises :
    rename_param [("X", 0)] "X" "X" = Except.error PyErr.valueError := by
  rfl

theorem paramGet_paramSet_self (d : List (String × Nat)) (k : String) (v : Nat) :
    paramGet (paramSet d k v) k = some v := by
  unfold paramSet
  by_cases hp : (paramGet d k).isSome
  · rw [if_pos hp]
    induction d with
    | nil => simp [paramGet] at hp
    | cons p d ih =>
      by_cases h : p.1 == k
      · simp [paramGet, h]
      · unfold paramGet at hp
        rw [if_neg (by simp_all)] at hp
        simpa [paramGet, h] using ih hp
  · rw [if_neg hp]
    induction d with
    | nil => simp [paramGet]
    | cons p d ih =>
      unfold paramGet at hp
      by_cases h : p.1 == k
      · rw [if_pos (by simp_all)] at hp
        simp at hp
      · rw [if_neg (by simp_all)] at hp
        simpa [paramGet, h] using ih hp

theorem paramGet_paramDel_self (d : List (String × Nat)) (k : String) :
    paramGet (paramDel d k) k = none := by
  induction d with
  | nil => rfl
  | cons p d ih =>
    unfold paramDel at *
    by_cases h : p.1 == k
    · simpa [List.filter_cons, h] using ih
    · simpa [List.filter_cons, h, paramGet] using ih

theorem paramGet_append_single (d : List (String × Nat)) (k k' : String)
    (v : Nat) (h : k' ≠ k) : paramGet (d ++ [(k, v)]) k' = paramGet d k' := by
  induction d with
  | nil =>
    have hk : ¬(k == k') := by simpa using fun hh => h hh.symm
    simp [paramGet, hk]
  | cons p d ih =>
    by_cases hpk : p.1 == k' <;> simp [paramGet, hpk, ih]

theorem paramGet_map_update (d : List (String × Nat)) (k k' : String)
    (v : Nat) (h : k' ≠ k) :
    paramGet (d.map (fun p => if p.1 == k then (p.1, v) else p)) k'
      = paramGet d k' := by
  induction d with
  | nil => rfl
  | cons p d ih =>
    by_cases hpk : p.1 == k
    · have hp1 : p.1 = k := by simpa using hpk
      have hne : ¬(p.1 == k') = true := by simpa [hp1] using fun hh => h hh.symm
      simp only [List.map_cons, if_pos hpk, paramGet, if_neg hne]
      exact ih
    · by_cases hpk2 : p.1 == k'
      · simp only [List.map_cons, if_neg hpk, paramGet, if_pos hpk2]
      · simp only [List.map_cons, if_neg hpk, paramGet, if_neg hpk2]
        exact ih

theorem paramGet_paramSet_other (d : List (String × Nat)) (k k' : String)
    (v : Nat) (h : k' ≠ k) : paramGet (paramSet d k v) k' = paramGet d k' := by
  unfold paramSet
  by_cases hp : (paramGet d k).isSome
  · rw [if_pos hp]; exact paramGet_map_update d k k' v h
  · rw [if_neg hp]; exact paramGet_append_single d k k' v h

/-- Claim C7 amended: `GroupData.rename_param(name, new_name)` raises the
duplicate-key `ValueError` whenever `new_name` already names *any* existing
parameter — including the renamed parameter itself, so renaming onto the
identical current name also raises; when `new_name` is absent, the parameter
becomes reachable under `new_name` and unreachable under the old name. -/
theorem rename_param_duplicate_and_move (d : List (String × Nat))
    (name new_name : String) :
    ((paramGet d new_name).isSome
      → rename_param d name new_name = Except.error PyErr.valueError)
    ∧ (paramGet d new_name = none
      → ∀ p, paramGet d name = some p
      → rename_param d name new_name
          = Except.ok (paramSet (paramDel d name) new_name p)
        ∧ paramGet (paramSet (paramDel d name) new_name p) new_name = some p
        ∧ paramGet (paramSet (paramDel d name) new_name p) name = none) := by
  constructor
  · intro hdup
    unfold rename_param
    rw [if_pos hdup]
  · intro habs p hp
    have hne : name ≠ new_name := by
      intro he
      rw [he, habs] at hp
      exact Option.noConfusion hp
    refine ⟨?_, paramGet_paramSet_self _ _ _, ?_⟩
    · unfold rename_param
      rw [if_neg (by simp [habs]), hp]
    · rw [paramGet_paramSet_other (paramDel d name) new_name name p hne]
      exact paramGet_paramDel_self d name

/-- Witness for the amended C7 theorem: in a group holding only `X`, renaming
`X` to `Y` succeeds, `Y` resolves to the parameter and `X` no longer
resolves. -/
theorem rename_param_duplicate_and_move_witness :
    rename_param [("X", 0)] "X" "Y" = Except.ok [("Y", 0)]
      ∧ paramGet [("Y", 0)] "Y" = some 0
      ∧ paramGet [("Y", 0)] "X" = none := by
  have h := (rename_param_duplicate_and_move [("X", 0)] "X" "Y").2 (by rfl) 0 (by rfl)
  refine ⟨?_, by rfl, by rfl⟩
  have h1 := h.1
  simpa using h1

/-! ## Header event encoding (`c3d/header.py`, `Header.encode_events`)

`header.py` imports only `sys`, `struct`, `numpy` and `.utils` — it never
imports `warnings`.  `encode_events` enumerates the input events and, on
reaching index 18 (`if i > 17`), calls `warnings.warn(...)`, which therefore
raises `NameError` instead of warning.  (For an empty input the loop never
binds `i` and the `write_count = min(i + 1, 18)` line likewise raises
`NameError`.)  Event timings are `Rat`, labels are their UTF-8 byte lists;
the packed 74-byte block layout itself is not needed by the claim and is
summarized by the structured fields below. -/

/-- The event state `encode_events` stores back onto the header. -/
structure EncodeRes where
  event_count : Nat
  event_timings : List Rat
  event_disp_flags : List Bool
  event_labels : List (List Nat)
  deriving DecidableEq, Repr

/-- The `for i, (time, label) in enumerate(events)` loop: index 18 reaches the
`warnings.warn` call of the unimported `warnings` module and raises. -/
def encode_events_loop : Nat → List (Rat × List Nat) →
    Except PyErr (List (Rat × List Nat))
  | _, [] => .ok []
  | i, e :: rest =>
    if i > 17 then .error .nameError
    else (encode_events_loop (i + 1) rest).map (e :: ·)

/-- Embedding of `Header.encode_events`: run the loop (empty input leaves the
loop variable unbound, so the `write_count` line raises `NameError`), then
store `write_count = min(i + 1, 18)` events with their timings, display
flags and labels. -/
def encode_events (events : List (Rat × List Nat)) : Except PyErr EncodeRes :=
  match events with
  | [] => .error .nameError
  | _ =>
    (encode_events_loop 0 events).map (fun kept =>
      { event_count := kept.length,
        event_timings := kept.map Prod.fst,
        event_disp_flags := List.replicate kept.length true,
        event_labels := kept.map Prod.snd })

/-- Claim C8, evaluated at the failing input: 19 events make `encode_events`
raise `NameError` (the `warnings` module is never imported in `header.py`)
instead of warning and completing with the first 18; 18 events are still
encoded normally. -/
theorem encode_events_19_raises :
    encode_events (List.replicate 19 ((0 : Rat), [80, 69, 65, 75]))
        = Except.error PyErr.nameError
    ∧ (encode_events (List.replicate 18 ((0 : Rat), [80, 69, 65, 75]))).toOption
        = some { event_count := 18,
                 event_timings := List.replicate 18 (0 : Rat),
                 event_disp_flags := List.replicate 18 true,
                 event_labels := List.replicate 18 [80, 69, 65, 75] } := by
  constructor
  · rfl
  · decide

/-! ## Serialized sizes (`c3d/parameter.py` `ParamData.binary_size`/`write`,
`c3d/group.py` `GroupData.binary_size`/`write`)

`ParamData.write` emits `struct.pack('bb', len(name), group_id)`, the name
bytes, the int16 offset-to-next, `bytes_per_element`, the dimension count and
sizes, the payload (when non-empty), and the description length and bytes;
`GroupData.write` emits `struct.pack('bb', len(name), -group_id)`, the name,
the int16 `3 + len(desc)`, the description length and bytes, then every
parameter record.  `struct.pack` raises `struct.error` when a value is out of
range for its format character, so the pack helpers below return `Option`;
names and descriptions are carried as their UTF-8 byte lists. -/

/-- `struct.pack('b', n)`: one signed byte. -/
def pack_b (n : Int) : Option (List Nat) :=
  if -128 ≤ n ∧ n ≤ 127 then some [((n % 256 + 256) % 256).toNat] else none

/-- `struct.pack('B', n)`: one unsigned byte. -/
def pack_B (n : Nat) : Option (List Nat) :=
  if n ≤ 255 then some [n] else none

/-- `struct.pack('<h', n)`: two bytes, little-endian signed 16-bit. -/
def pack_h_le (n : Int) : Option (List Nat) :=
  if -32768 ≤ n ∧ n ≤ 32767 then
    some [((n % 65536 + 65536) % 65536).toNat % 256,
          ((n % 65536 + 65536) % 65536).toNat / 256]
  else none

/-- `struct.pack('B' * len(dims), *dims)`. -/
def packDims : List Nat → Option (List Nat)
  | [] => some []
  | d :: ds => do
    let b ← pack_B d
    let r ← packDims ds
    some (b ++ r)

/-- Embedding of `ParamData` as needed for serialization: the name and
description as UTF-8 byte lists, the signed element width, the Fortran
dimension list and the raw payload bytes. -/
structure ParamDataM where
  name : List Nat
  bytes_per_element : Int
  dimensions : List Nat
  bytes : List Nat
  desc : List Nat
  deriving DecidableEq, Repr

/-- `ParamData.num_elements`: product of the dimensions (`1` when empty). -/
def ParamDataM.num_elements (p : ParamDataM) : Nat :=
  p.dimensions.foldl (· * ·) 1

/-- `ParamData.total_bytes`: `num_elements * abs(bytes_per_element)`. -/
def ParamDataM.total_bytes (p : ParamDataM) : Nat :=
  p.num_elements * p.bytes_per_element.natAbs

/-- `ParamData.binary_size`: group id byte, offset word, name length byte and
name, element-size byte, dimension count byte and dimension bytes, payload,
description length byte and description. -/
def ParamDataM.binary_size (p : ParamDataM) : Nat :=
  1 + 2 + 1 + p.name.length + 1 + 1 + p.dimensions.length
    + p.total_bytes + 1 + p.desc.length

/-- Embedding of `ParamData.write`: the emitted byte stream, or `none` when
one of the `struct.pack` calls raises. -/
def ParamDataM.write (p : ParamDataM) (group_id : Int) : Option (List Nat) := do
  let b1 ← pack_b (p.name.length : Int)
  let b2 ← pack_b group_id
  let b3 ← pack_h_le ((p.binary_size : Int) - 2 - p.name.length)
  let b4 ← pack_b p.bytes_per_element
  let b5 ← pack_B p.dimensions.length
  let b6 ← packDims p.dimensions
  let b7 ← pack_B p.desc.length
  some (b1 ++ b2 ++ p.name ++ b3 ++ b4 ++ b5 ++ b6
        ++ (if p.bytes.length > 0 then p.bytes else []) ++ b7 ++ p.desc)

/-- Embedding of `GroupData` as needed for serialization. -/
structure GroupDataM where
  name : List Nat
  desc : List Nat
  params : List ParamDataM
  deriving DecidableEq, Repr

/-- `GroupData.binary_size`: group record bytes plus the `binary_size` of
every parameter. -/
def GroupDataM.binary_size (g : GroupDataM) : Nat :=
  1 + 1 + g.name.length + 2 + 1 + g.desc.length
    + (g.params.map ParamDataM.binary_size).sum

/-- The `for param in self._params.values(): param._data.write(group_id, handle)`
loop of `GroupData.write`. -/
def writeParams : List ParamDataM → Int → Option (List Nat)
  | [], _ => some []
  | p :: ps, gid => do
    let w ← p.write gid
    let r ← writeParams ps gid
    some (w ++ r)

/-- Embedding of `GroupData.write`: the emitted byte stream, or `none` when a
`struct.pack` call raises. -/
def GroupDataM.write (g : GroupDataM) (group_id : Int) : Option (List Nat) := do
  let b1 ← pack_b (g.name.length : Int)
  let b2 ← pack_b (-group_id)
  let b3 ← pack_h_le (3 + g.desc.length)
  let b4 ← pack_B g.desc.length
  let rest ← writeParams g.params group_id
  some (b1 ++ b2 ++ g.name ++ b3 ++ b4 ++ g.desc ++ rest)

theorem pack_b_length (n : Int) (l : List Nat) (h : pack_b n = some l) :
    l.length = 1 := by
  unfold pack_b at h
  split at h
  · cases h; rfl
  · cases h

theorem pack_B_length (n : Nat) (l : List Nat) (h : pack_B n = some l) :
    l.length = 1 := by
  unfold pack_B at h
  split at h
  · cases h; rfl
  · cases h

theorem pack_h_le_length (n : Int) (l : List Nat) (h : pack_h_le n = some l) :
    l.length = 2 := by
  unfold pack_h_le at h
  split at h
  · cases h; rfl
  · cases h

theorem packDims_length (ds : List Nat) (l : List Nat)
    (h : packDims ds = some l) : l.length = ds.length := by
  induction ds generalizing l with
  | nil => cases h; rfl
  | cons d ds ih =>
    unfold packDims at h
    cases hb : pack_B d with
    | none => rw [hb] at h; cases h
    | some b =>
      rw [hb] at h
      cases hr : packDims ds with
      | none => rw [hr] at h; cases h
      | some r =>
        rw [hr] at h
        cases h
        simp only [List.length_append, pack_B_length d b hb, ih r hr,
          List.length_cons]
        omega

theorem param_write_length (p : ParamDataM) (gid : Int) (bs : List Nat)
    (hpay : p.bytes.length = p.total_bytes) (hw : p.write gid = some bs) :
    bs.length = p.binary_size := by
  unfold ParamDataM.write at hw
  cases h1 : pack_b (p.name.length : Int) with
  | none => rw [h1] at hw; cases hw
  | some b1 =>
  rw [h1] at hw
  cases h2 : pack_b gid with
  | none => rw [h2] at hw; cases hw
  | some b2 =>
  rw [h2] at hw
  cases h3 : pack_h_le ((p.binary_size : Int) - 2 - p.name.length) with
  | none => rw [h3] at hw; cases hw
  | some b3 =>
  rw [h3] at hw
  cases h4 : pack_b p.bytes_per_element with
  | none => rw [h4] at hw; cases hw
  | some b4 =>
  rw [h4] at hw
  cases h5 : pack_B p.dimensions.length with
  | none => rw [h5] at hw; cases hw
  | some b5 =>
  rw [h5] at hw
  cases h6 : packDims p.dimensions with
  | none => rw [h6] at hw; cases hw
  | some b6 =>
  rw [h6] at hw
  cases h7 : pack_B p.desc.length with
  | none => rw [h7] at hw; cases hw
  | some b7 =>
  rw [h7] at hw
  cases hw
  have e1 := pack_b_length _ _ h1
  have e2 := pack_b_length _ _ h2
  have e3 := pack_h_le_length _ _ h3
  have e4 := pack_b_length _ _ h4
  have e5 := pack_B_length _ _ h5
  have e6 := packDims_length _ _ h6
  have e7 := pack_B_length _ _ h7
  have hpayl : (if p.bytes.length > 0 then p.bytes else []).length
      = p.total_bytes := by
    split
    · exact hpay
    · simp only [List.length_nil]
      omega
  simp only [List.length_append, e1, e2, e3, e4, e5, e6, e7, hpayl,
    ParamDataM.binary_size]
  omega

theorem writeParams_length (ps : List ParamDataM) (gid : Int) (bs : List Nat)
    (hpay : ∀ p ∈ ps, p.bytes.length = p.total_bytes)
    (hw : writeParams ps gid = some bs) :
    bs.length = (ps.map ParamDataM.binary_size).sum := by
  induction ps generalizing bs with
  | nil => cases hw; rfl
  | cons p ps ih =>
    unfold writeParams at hw
    cases hp : p.write gid with
    | none => rw [hp] at hw; cases hw
    | some w =>
      rw [hp] at hw
      cases hr : writeParams ps gid with
      | none => rw [hr] at hw; cases hw
      | some r =>
        rw [hr] at hw
        cases hw
        have h1 := param_write_length p gid w (hpay p (by simp)) hp
        have h2 := ih r (fun q hq => hpay q (by simp [hq])) hr
        simp [h1, h2]

theorem group_write_length (g : GroupDataM) (gid : Int) (bs : List Nat)
    (hpay : ∀ p ∈ g.params, p.bytes.length = p.total_bytes)
    (hw : g.write gid = some bs) :
    bs.length = g.binary_size := by
  unfold GroupDataM.write at hw
  cases h1 : pack_b (g.name.length : Int) with
  | none => rw [h1] at hw; cases hw
  | some b1 =>
  rw [h1] at hw
  cases h2 : pack_b (-gid) with
  | none => rw [h2] at hw; cases hw
  | some b2 =>
  rw [h2] at hw
  cases h3 : pack_h_le (3 + g.desc.length) with
  | none => rw [h3] at hw; cases hw
  | some b3 =>
  rw [h3] at hw
  cases h4 : pack_B g.desc.length with
  | none => rw [h4] at hw; cases hw
  | some b4 =>
  rw [h4] at hw
  cases h5 : writeParams g.params gid with
  | none => rw [h5] at hw; cases hw
  | some rest =>
  rw [h5] at hw
  cases hw
  have e1 := pack_b_length _ _ h1
  have e2 := pack_b_length _ _ h2
  have e3 := pack_h_le_length _ _ h3
  have e4 := pack_B_length _ _ h4
  have e5 := writeParams_length _ _ _ hpay h5
  simp only [List.length_append, e1, e2, e3, e4, e5, GroupDataM.binary_size]

/-- Claim C10: when a parameter's raw payload length equals its
`total_bytes`, the byte stream `ParamData.write` emits has exactly
`binary_size` bytes; and for a group whose parameters all satisfy that
invariant, `GroupData.write` emits exactly `GroupData.binary_size` bytes
(its own record plus the sum of its parameters' sizes) — the agreement the
Writer's `parameter_blocks`/`data_block` computation relies on. -/
theorem write_emits_binary_size :
    (∀ (p : ParamDataM) (gid : Int) (bs : List Nat),
        p.bytes.length = p.total_bytes → p.write gid = some bs
        → bs.length = p.binary_size)
    ∧ (∀ (g : GroupDataM) (gid : Int) (bs : List Nat),
        (∀ p ∈ g.params, p.bytes.length = p.total_bytes)
        → g.write gid = some bs → bs.length = g.binary_size) :=
  ⟨param_write_length, group_write_length⟩

/-- Witness for C10: a one-parameter group (`A` with payload `[7, 8]` of
shape `[2]`, group `G` with id 1); the parameter record is 11 bytes and the
group record 17 bytes, matching both `binary_size` computations. -/
theorem write_emits_binary_size_witness :
    ([1, 1, 65, 8, 0, 1, 1, 2, 7, 8, 0] : List Nat).length
        = ({ name := [65], bytes_per_element := 1, dimensions := [2],
             bytes := [7, 8], desc := [] } : ParamDataM).binary_size
    ∧ ([1, 255, 71, 3, 0, 0, 1, 1, 65, 8, 0, 1, 1, 2, 7, 8, 0] : List Nat).length
        = ({ name := [71], desc := [],
             params := [{ name := [65], bytes_per_element := 1,
                          dimensions := [2], bytes := [7, 8], desc := [] }] }
            : GroupDataM).binary_size := by
  constructor
  · exact write_emits_binary_size.1
      { name := [65], bytes_per_element := 1, dimensions := [2],
        bytes := [7, 8], desc := [] } 1 _ (by decide) (by decide)
  · exact write_emits_binary_size.2
      { name := [71], desc := [],
        params := [{ name := [65], bytes_per_element := 1, dimensions := [2],
                     bytes := [7, 8], desc := [] }] } 1 _ (by decide) (by decide)
